import Mathlib

/-!
Verification development for `src/wrapping/unwrap_with_template.c` of the
aws-cloudhsm-pkcs11-examples repository.

The PKCS#11 module (CloudHSM) is an external collaborator: every call into it
(`C_FindObjectsInit`, `C_FindObjects`, `C_FindObjectsFinal`, `C_GenerateKeyPair`,
`C_WrapKey`, `C_UnwrapKey`, `C_GetAttributeValue`, `C_DestroyObject`) and the
`malloc` of the wrapped-key buffer are modelled by an environment record that
fixes the module's response to each call site.  Each C function is embedded as
a Lean function from its environment to its return value together with the
trace of externally visible calls it performs, following the C control flow
statement by statement.
-/

/-! ## PKCS#11 constants used by the program -/

/-- CKR_OK, the unique success status of the PKCS#11 API. -/
def CKR_OK : Nat := 0x00

/-- CKR_GENERAL_ERROR. -/
def CKR_GENERAL_ERROR : Nat := 0x05

/-- CKR_ARGUMENTS_BAD. -/
def CKR_ARGUMENTS_BAD : Nat := 0x07

/-- CKR_TEMPLATE_INCONSISTENT, the status the program expects from the
inconsistent-template unwrap. -/
def CKR_TEMPLATE_INCONSISTENT : Nat := 0xD1

/-- CK_INVALID_HANDLE, the sentinel object handle (0). -/
def CK_INVALID_HANDLE : Nat := 0

/-- CKA_CLASS attribute type. -/
def CKA_CLASS : Nat := 0x00

/-- CKA_TOKEN attribute type. -/
def CKA_TOKEN : Nat := 0x01

/-- CKA_LABEL attribute type. -/
def CKA_LABEL : Nat := 0x03

/-- CKA_TRUSTED attribute type. -/
def CKA_TRUSTED : Nat := 0x86

/-- CKA_KEY_TYPE attribute type. -/
def CKA_KEY_TYPE : Nat := 0x100

/-- CKA_SIGN attribute type. -/
def CKA_SIGN : Nat := 0x108

/-- CKA_VERIFY attribute type. -/
def CKA_VERIFY : Nat := 0x10A

/-- CKA_MODULUS_BITS attribute type. -/
def CKA_MODULUS_BITS : Nat := 0x121

/-- CKA_PUBLIC_EXPONENT attribute type. -/
def CKA_PUBLIC_EXPONENT : Nat := 0x122

/-- CKA_EXTRACTABLE attribute type. -/
def CKA_EXTRACTABLE : Nat := 0x162

/-- CKA_WRAP_WITH_TRUSTED attribute type. -/
def CKA_WRAP_WITH_TRUSTED : Nat := 0x210

/-- CKO_PRIVATE_KEY object class. -/
def CKO_PRIVATE_KEY : Nat := 0x03

/-- CKK_RSA key type. -/
def CKK_RSA : Nat := 0x00

/-- sizeof(CK_BBOOL): CK_BBOOL is CK_BYTE, one byte. -/
def sizeof_CK_BBOOL : Nat := 1

/-- sizeof(CK_ULONG) on the LP64 platforms the example targets. -/
def sizeof_CK_ULONG : Nat := 8

/-- sizeof(CK_OBJECT_CLASS) (a CK_ULONG). -/
def sizeof_CK_OBJECT_CLASS : Nat := 8

/-- sizeof(CK_KEY_TYPE) (a CK_ULONG). -/
def sizeof_CK_KEY_TYPE : Nat := 8

/-- sizeof(CK_VOID_PTR): the size of a pointer, 8 on the LP64 platforms the
example targets (64-bit Linux). -/
def sizeof_CK_VOID_PTR : Nat := 8

/-! ## Key Locator: `find_wrapping_key_with_label`

The function makes up to five module calls, in source order:
`C_FindObjectsInit` (line 90), a first `C_FindObjects` with a NULL object
buffer and a maximum count of 2 (line 98, used only to count matches), a second
`C_FindObjects` with the caller's handle pointer and a maximum count of 1
(line 112), and `C_FindObjectsFinal` (lines 100, 115, 118).  The environment
record fixes the module's response at each of these call sites. -/

/-- Module responses for one run of `find_wrapping_key_with_label`.
`countFound` is the match count the first `C_FindObjects` reports;
`fetchFound` and `fetchHandle` are the count and the handle the second
`C_FindObjects` reports (the handle is written to `*hObject` only when the
call succeeds with at least one match). -/
structure FindEnv where
  initRv : Nat
  countRv : Nat
  countFound : Nat
  fetchRv : Nat
  fetchFound : Nat
  fetchHandle : Nat
  finalRv : Nat
deriving DecidableEq

/-- Observable outcome of `find_wrapping_key_with_label`: the returned CK_RV,
the value written to the caller's `*hObject` (none when the function never
writes it), and the number of `C_FindObjectsFinal` calls it performed. -/
structure FindResult where
  rv : Nat
  hObjectOut : Option Nat
  finalCalls : Nat
deriving DecidableEq

/-- Embedding of `find_wrapping_key_with_label` (lines 77-130), branch for
branch.  Note two places where the return value is taken straight from the C
variable `rv`: on the multiple-match branch (line 104) the function returns
`CKR_GENERAL_ERROR` without any `C_FindObjectsFinal` call, and on the
zero-match branch (line 124) it returns `rv`, which at that point holds the
`CKR_OK` produced by the successful `C_FindObjectsFinal` at line 118. -/
def find_wrapping_key_with_label (env : FindEnv) (hObjectIsNull : Bool) : FindResult :=
  if hObjectIsNull then ⟨CKR_ARGUMENTS_BAD, none, 0⟩
  else if env.initRv ≠ CKR_OK then ⟨env.initRv, none, 0⟩
  else if env.countRv ≠ CKR_OK then ⟨env.countRv, none, 1⟩
  else if env.countFound > 1 then ⟨CKR_GENERAL_ERROR, none, 0⟩
  else if env.fetchRv ≠ CKR_OK then ⟨env.fetchRv, none, 1⟩
  else
    let hOut : Option Nat := if env.fetchFound ≥ 1 then some env.fetchHandle else none
    if env.finalRv ≠ CKR_OK then ⟨env.finalRv, hOut, 1⟩
    else if env.fetchFound = 0 then ⟨env.finalRv, hOut, 1⟩
    else ⟨CKR_OK, hOut, 1⟩

/-- All module calls succeed and the label matches zero objects: both
`C_FindObjects` calls report a count of 0. -/
def envZeroMatches : FindEnv := ⟨CKR_OK, CKR_OK, 0, CKR_OK, 0, 0, CKR_OK⟩

/-- Search successfully initiated and the counting `C_FindObjects` call
succeeds reporting 2 matches. -/
def envTwoMatches : FindEnv := ⟨CKR_OK, CKR_OK, 2, CKR_OK, 0, 0, CKR_OK⟩

/-- C1: when the search completes with zero matches, `find_wrapping_key_with_label`
is claimed to return a non-OK NotFound status; evaluating the embedded code on
the zero-match run shows it in fact returns `CKR_OK` (the value `rv` holds
after the successful `C_FindObjectsFinal`), writing no handle, so the function
reports success. -/
theorem find_zero_matches_returns_ok :
    (find_wrapping_key_with_label envZeroMatches false).rv = CKR_OK ∧
    (find_wrapping_key_with_label envZeroMatches false).hObjectOut = none := by
  decide

/-- C2: on the path where more than one match is found, the search is claimed
to be finalized exactly once before returning; evaluating the embedded code on
a two-match run shows the function returns `CKR_GENERAL_ERROR` with zero
`C_FindObjectsFinal` calls, leaving the search open. -/
theorem find_multiple_matches_skips_finalize :
    (find_wrapping_key_with_label envTwoMatches false).finalCalls = 0 ∧
    (find_wrapping_key_with_label envTwoMatches false).rv = CKR_GENERAL_ERROR := by
  decide

/-- C8: whenever the search is successfully initiated and the counting call
reports more than one match, the function returns `CKR_GENERAL_ERROR` (the
status the specification names AmbiguousKey) and never writes a handle to the
caller's output parameter. -/
theorem find_multiple_matches_ambiguous (env : FindEnv)
    (h1 : env.initRv = CKR_OK) (h2 : env.countRv = CKR_OK)
    (h3 : 1 < env.countFound) :
    (find_wrapping_key_with_label env false).rv = CKR_GENERAL_ERROR ∧
    (find_wrapping_key_with_label env false).hObjectOut = none := by
  simp [find_wrapping_key_with_label, h1, h2, h3]

/-- C8 witness: the two-match run satisfies the hypotheses and the conclusion. -/
theorem find_multiple_matches_ambiguous_witness :
    (find_wrapping_key_with_label envTwoMatches false).rv = CKR_GENERAL_ERROR ∧
    (find_wrapping_key_with_label envTwoMatches false).hObjectOut = none :=
  find_multiple_matches_ambiguous envTwoMatches (by decide) (by decide) (by decide)

/-! ## Attribute Template Builder: the unwrap templates of `aes_unwrap_key` -/

/-- The three template variants of `enum TEMPLATE_TYPE` (lines 25-29). -/
inductive TEMPLATE_TYPE where
  | VALID
  | INCONSISTENT
  | INCOMPLETE
deriving DecidableEq

/-- The value a CK_ATTRIBUTE's `pValue` points at: a CK_BBOOL, a CK_ULONG
(also covering CK_OBJECT_CLASS and CK_KEY_TYPE), or a byte array. -/
inductive AttrValue where
  | bbool (b : Bool)
  | ulong (n : Nat)
  | bytes (bs : List Nat)
deriving DecidableEq

/-- A CK_ATTRIBUTE as placed in a template: attribute type, pointed-at value,
and `ulValueLen`. -/
structure CK_ATTRIBUTE where
  type : Nat
  pValue : AttrValue
  ulValueLen : Nat
deriving DecidableEq

/-- The attribute template `aes_unwrap_key` passes to `C_UnwrapKey` for each
template variant (the `switch` at lines 184-211): every variant starts with
CKA_CLASS = CKO_PRIVATE_KEY, CKA_KEY_TYPE = CKK_RSA and CKA_TOKEN = false;
VALID appends CKA_EXTRACTABLE = true, INCONSISTENT appends
CKA_EXTRACTABLE = false, INCOMPLETE appends nothing (template_count 3). -/
def aes_unwrap_key_template : TEMPLATE_TYPE → List CK_ATTRIBUTE
  | .VALID =>
      [⟨CKA_CLASS, .ulong CKO_PRIVATE_KEY, sizeof_CK_OBJECT_CLASS⟩,
       ⟨CKA_KEY_TYPE, .ulong CKK_RSA, sizeof_CK_KEY_TYPE⟩,
       ⟨CKA_TOKEN, .bbool false, sizeof_CK_BBOOL⟩,
       ⟨CKA_EXTRACTABLE, .bbool true, sizeof_CK_BBOOL⟩]
  | .INCONSISTENT =>
      [⟨CKA_CLASS, .ulong CKO_PRIVATE_KEY, sizeof_CK_OBJECT_CLASS⟩,
       ⟨CKA_KEY_TYPE, .ulong CKK_RSA, sizeof_CK_KEY_TYPE⟩,
       ⟨CKA_TOKEN, .bbool false, sizeof_CK_BBOOL⟩,
       ⟨CKA_EXTRACTABLE, .bbool false, sizeof_CK_BBOOL⟩]
  | .INCOMPLETE =>
      [⟨CKA_CLASS, .ulong CKO_PRIVATE_KEY, sizeof_CK_OBJECT_CLASS⟩,
       ⟨CKA_KEY_TYPE, .ulong CKK_RSA, sizeof_CK_KEY_TYPE⟩,
       ⟨CKA_TOKEN, .bbool false, sizeof_CK_BBOOL⟩]

/-- C7: every unwrap template variant contains the private-key class attribute
and the RSA key-type attribute; stripped of the CKA_EXTRACTABLE attribute the
three variants coincide (so they differ only in extractability); VALID carries
CKA_EXTRACTABLE = true, INCONSISTENT carries CKA_EXTRACTABLE = false, and
INCOMPLETE carries no CKA_EXTRACTABLE attribute at all. -/
theorem unwrap_templates_differ_only_in_extractable :
    ((⟨CKA_CLASS, .ulong CKO_PRIVATE_KEY, sizeof_CK_OBJECT_CLASS⟩ : CK_ATTRIBUTE) ∈
        aes_unwrap_key_template .VALID ∧
     (⟨CKA_CLASS, .ulong CKO_PRIVATE_KEY, sizeof_CK_OBJECT_CLASS⟩ : CK_ATTRIBUTE) ∈
        aes_unwrap_key_template .INCONSISTENT ∧
     (⟨CKA_CLASS, .ulong CKO_PRIVATE_KEY, sizeof_CK_OBJECT_CLASS⟩ : CK_ATTRIBUTE) ∈
        aes_unwrap_key_template .INCOMPLETE) ∧
    ((⟨CKA_KEY_TYPE, .ulong CKK_RSA, sizeof_CK_KEY_TYPE⟩ : CK_ATTRIBUTE) ∈
        aes_unwrap_key_template .VALID ∧
     (⟨CKA_KEY_TYPE, .ulong CKK_RSA, sizeof_CK_KEY_TYPE⟩ : CK_ATTRIBUTE) ∈
        aes_unwrap_key_template .INCONSISTENT ∧
     (⟨CKA_KEY_TYPE, .ulong CKK_RSA, sizeof_CK_KEY_TYPE⟩ : CK_ATTRIBUTE) ∈
        aes_unwrap_key_template .INCOMPLETE) ∧
    ((aes_unwrap_key_template .VALID).filter (fun a => a.type != CKA_EXTRACTABLE) =
       (aes_unwrap_key_template .INCONSISTENT).filter (fun a => a.type != CKA_EXTRACTABLE) ∧
     (aes_unwrap_key_template .VALID).filter (fun a => a.type != CKA_EXTRACTABLE) =
       (aes_unwrap_key_template .INCOMPLETE).filter (fun a => a.type != CKA_EXTRACTABLE)) ∧
    (aes_unwrap_key_template .VALID).filter (fun a => a.type == CKA_EXTRACTABLE) =
      [⟨CKA_EXTRACTABLE, .bbool true, sizeof_CK_BBOOL⟩] ∧
    (aes_unwrap_key_template .INCONSISTENT).filter (fun a => a.type == CKA_EXTRACTABLE) =
      [⟨CKA_EXTRACTABLE, .bbool false, sizeof_CK_BBOOL⟩] ∧
    (aes_unwrap_key_template .INCOMPLETE).filter (fun a => a.type == CKA_EXTRACTABLE) = [] := by
  decide

/-! ## Policy Validator: `get_attribute`

The C function (lines 232-246) fills a single CK_ATTRIBUTE request with
`attr.type = attr_type`, `attr.ulValueLen = sizeof(attr_value)` and
`attr.pValue = attr_value`, where `attr_value` is the `CK_VOID_PTR` parameter;
`sizeof(attr_value)` is therefore the size of a pointer, independent of the
caller's actual buffer. -/

/-- The (type, ulValueLen) pair of the CK_ATTRIBUTE request `get_attribute`
passes to `C_GetAttributeValue`. -/
structure AttrQuery where
  type : Nat
  ulValueLen : Nat
deriving DecidableEq

/-- Embedding of the request construction in `get_attribute` (lines 239-242):
whatever the attribute type, `ulValueLen` is set to `sizeof(CK_VOID_PTR)`. -/
def get_attribute (attr_type : Nat) : AttrQuery :=
  ⟨attr_type, sizeof_CK_VOID_PTR⟩

/-- Size of the buffer the CKA_TRUSTED call site passes: `&cka_trusted_val`
with `CK_BBOOL cka_trusted_val` (lines 331-332). -/
def cka_trusted_caller_buffer_size : Nat := sizeof_CK_BBOOL

/-- Size of the buffer both CKA_EXTRACTABLE call sites pass: `&val` with
`CK_BBOOL val` (lines 263, 274-275, 297-298). -/
def cka_extractable_caller_buffer_size : Nat := sizeof_CK_BBOOL

/-- C9: every attribute request built by `get_attribute` sets the value-length
field to `sizeof(CK_VOID_PTR)`; in particular the CKA_TRUSTED and
CKA_EXTRACTABLE queries request pointer-sized (8-byte) values although their
callers supply one-byte CK_BBOOL buffers. -/
theorem get_attribute_requests_pointer_size :
    (∀ t : Nat, (get_attribute t).ulValueLen = sizeof_CK_VOID_PTR) ∧
    (get_attribute CKA_TRUSTED).ulValueLen ≠ cka_trusted_caller_buffer_size ∧
    (get_attribute CKA_EXTRACTABLE).ulValueLen ≠ cka_extractable_caller_buffer_size ∧
    cka_trusted_caller_buffer_size = sizeof_CK_BBOOL ∧
    cka_extractable_caller_buffer_size = sizeof_CK_BBOOL :=
  ⟨fun _ => rfl, by decide, by decide, rfl, rfl⟩

/-! ## Wrap/Unwrap Engine driver: `aes_template_unwrap`

The function (lines 256-305) performs, in order: an unwrap with the VALID
template, a `get_attribute(CKA_EXTRACTABLE)` query, an unwrap with the
INCONSISTENT template (whose status is only compared against
`CKR_TEMPLATE_INCONSISTENT` for logging), an unwrap with the INCOMPLETE
template, and a second `get_attribute(CKA_EXTRACTABLE)` query.  Both
`get_attribute` calls pass `unwrapped_handle`, the handle produced by the
VALID unwrap; the variable `incomplete_unwrapped_handle` is never read after
being written. -/

/-- Externally visible calls `aes_template_unwrap` makes: an unwrap request
with a given template variant, or an attribute query on a given handle. -/
inductive UnwrapEvent where
  | unwrapCall (variant : TEMPLATE_TYPE)
  | getAttrCall (handle : Nat) (attrType : Nat)
deriving DecidableEq

/-- Module responses for one run of `aes_template_unwrap`.  The `Handle`
fields are the handles the module writes on a successful unwrap; `attrValidRv`
and `attrIncompleteRv` are the statuses of the first and second
`get_attribute` queries, and the `Val` fields the CK_BBOOL values they
report. -/
structure UnwrapEnv where
  validRv : Nat
  validHandle : Nat
  attrValidRv : Nat
  attrValidVal : Bool
  inconsistentRv : Nat
  inconsistentHandle : Nat
  incompleteRv : Nat
  incompleteHandle : Nat
  attrIncompleteRv : Nat
  attrIncompleteVal : Bool
deriving DecidableEq

/-- Embedding of `aes_template_unwrap` (lines 256-305): the returned CK_RV
paired with the trace of unwrap and attribute-query calls, branch for branch.
The INCONSISTENT unwrap's status is only printed (lines 284-287) and the flow
falls through to the INCOMPLETE unwrap unconditionally; both attribute queries
pass `unwrapped_handle`, the handle from the VALID unwrap (lines 275 and 298). -/
def aes_template_unwrap (env : UnwrapEnv) : Nat × List UnwrapEvent :=
  if env.validRv ≠ CKR_OK then
    (env.validRv, [UnwrapEvent.unwrapCall .VALID])
  else if env.attrValidRv ≠ CKR_OK then
    (env.attrValidRv,
     [UnwrapEvent.unwrapCall .VALID,
      UnwrapEvent.getAttrCall env.validHandle CKA_EXTRACTABLE])
  else if env.incompleteRv ≠ CKR_OK then
    (env.incompleteRv,
     [UnwrapEvent.unwrapCall .VALID,
      UnwrapEvent.getAttrCall env.validHandle CKA_EXTRACTABLE,
      UnwrapEvent.unwrapCall .INCONSISTENT,
      UnwrapEvent.unwrapCall .INCOMPLETE])
  else
    (env.attrIncompleteRv,
     [UnwrapEvent.unwrapCall .VALID,
      UnwrapEvent.getAttrCall env.validHandle CKA_EXTRACTABLE,
      UnwrapEvent.unwrapCall .INCONSISTENT,
      UnwrapEvent.unwrapCall .INCOMPLETE,
      UnwrapEvent.getAttrCall env.validHandle CKA_EXTRACTABLE])

/-- A run in which every module call succeeds (the INCONSISTENT unwrap fails
with the expected mismatch status), the VALID unwrap yields handle 10 and the
INCOMPLETE unwrap yields the distinct handle 20. -/
def envDistinctHandles : UnwrapEnv :=
  ⟨CKR_OK, 10, CKR_OK, true, CKR_TEMPLATE_INCONSISTENT, CK_INVALID_HANDLE,
   CKR_OK, 20, CKR_OK, true⟩

/-- C4: the extractability check after the successful INCOMPLETE unwrap is
claimed to query the handle produced by that unwrap; evaluating the embedded
code on a run where the VALID unwrap yields handle 10 and the INCOMPLETE
unwrap yields handle 20 shows both CKA_EXTRACTABLE queries target handle 10
and handle 20 is never queried. -/
theorem incomplete_check_queries_valid_handle :
    (aes_template_unwrap envDistinctHandles).2 =
      [UnwrapEvent.unwrapCall .VALID,
       UnwrapEvent.getAttrCall 10 CKA_EXTRACTABLE,
       UnwrapEvent.unwrapCall .INCONSISTENT,
       UnwrapEvent.unwrapCall .INCOMPLETE,
       UnwrapEvent.getAttrCall 10 CKA_EXTRACTABLE] ∧
    UnwrapEvent.getAttrCall 20 CKA_EXTRACTABLE ∉ (aes_template_unwrap envDistinctHandles).2 := by
  decide

/-- Replace the status the module returns for the INCONSISTENT unwrap,
leaving every other response unchanged. -/
def withInconsistentRv (env : UnwrapEnv) (s : Nat) : UnwrapEnv :=
  { env with inconsistentRv := s }

/-- The result of `aes_template_unwrap` does not depend on the INCONSISTENT
unwrap's status at all. -/
theorem aes_template_unwrap_withInconsistentRv (env : UnwrapEnv) (s : Nat) :
    aes_template_unwrap (withInconsistentRv env s) = aes_template_unwrap env := by
  cases env
  rfl

/-- C6: once the run reaches the INCONSISTENT unwrap step (the VALID unwrap
and the first attribute query succeeded), whatever status `s` that step
returns, the run still performs the INCOMPLETE unwrap, and the function's
return value is the same as for any other status at that step, so the
INCONSISTENT step's status never becomes the return value of the run. -/
theorem inconsistent_status_never_aborts (env : UnwrapEnv) (s : Nat)
    (h1 : env.validRv = CKR_OK) (h2 : env.attrValidRv = CKR_OK) :
    (aes_template_unwrap (withInconsistentRv env s)).1 = (aes_template_unwrap env).1 ∧
    UnwrapEvent.unwrapCall .INCOMPLETE ∈ (aes_template_unwrap (withInconsistentRv env s)).2 := by
  refine ⟨by rw [aes_template_unwrap_withInconsistentRv], ?_⟩
  rw [aes_template_unwrap_withInconsistentRv]
  unfold aes_template_unwrap
  simp only [h1, h2, ne_eq, not_true_eq_false, if_false]
  split <;> simp

/-- C6 witness: a concrete run reaching the INCONSISTENT step, with its status
replaced by an arbitrary value 99. -/
theorem inconsistent_status_never_aborts_witness :
    (aes_template_unwrap (withInconsistentRv envDistinctHandles 99)).1 =
      (aes_template_unwrap envDistinctHandles).1 ∧
    UnwrapEvent.unwrapCall .INCOMPLETE ∈
      (aes_template_unwrap (withInconsistentRv envDistinctHandles 99)).2 :=
  inconsistent_status_never_aborts envDistinctHandles 99 (by decide) (by decide)

/-! ## Orchestrator: `aes_wrap_unwrap_with_trusted`

The function (lines 313-400) runs the main sequence: locate the wrapping key,
check its CKA_TRUSTED attribute, generate the RSA key pair, size-query the
wrap, `malloc` the buffer, fill the wrap, and run `aes_template_unwrap`; any
failure after the locate step jumps to the `done` label, which frees the
wrapped-key buffer if allocated and then calls `C_DestroyObject` on the public
and on the private key handle, each with its own status variable.  A locate
failure returns directly without reaching `done` (lines 324-328).  The handle
variables are initialized to `CK_INVALID_HANDLE` and only overwritten by a
successful `C_GenerateKeyPair`; the `malloc` failure branch (lines 366-369)
jumps to `done` without assigning `rv`, which still holds the `CKR_OK` of the
preceding size query. -/

/-- Externally visible resource actions of the `done` cleanup block. -/
inductive MainEvent where
  | freeWrappedKey
  | destroyObject (handle : Nat)
deriving DecidableEq

/-- Module and allocator responses for one run of
`aes_wrap_unwrap_with_trusted`: the locator's environment, the CKA_TRUSTED
query's status and reported value, `C_GenerateKeyPair`'s status and the two
handles it writes on success, the statuses of the size-query and fill calls to
`C_WrapKey`, whether `malloc` succeeds, the environment of the inner
`aes_template_unwrap` run, and the statuses of the two `C_DestroyObject`
calls. -/
structure MainEnv where
  findEnv : FindEnv
  trustedRv : Nat
  trustedVal : Bool
  genRv : Nat
  genPub : Nat
  genPriv : Nat
  sizeWrapRv : Nat
  mallocOk : Bool
  fillWrapRv : Nat
  unwrapEnv : UnwrapEnv
  destroyPubRv : Nat
  destroyPrivRv : Nat
deriving DecidableEq

/-- Observable outcome of `aes_wrap_unwrap_with_trusted`: the returned CK_RV,
whether the `done` cleanup block was reached, and the trace of cleanup
actions. -/
structure MainResult where
  rv : Nat
  cleanupRan : Bool
  trace : List MainEvent
deriving DecidableEq

/-- Embedding of the `done` block (lines 383-399): free the wrapped-key buffer
when it was allocated, then destroy the public and the private key handle; the
destroy statuses go into their own variables and never replace `rv`, so the
block returns `rv` unchanged. -/
def done_block (rv : Nat) (wrappedAllocated : Bool) (pub priv : Nat) : MainResult :=
  ⟨rv, true,
   (if wrappedAllocated then [MainEvent.freeWrappedKey] else []) ++
     [MainEvent.destroyObject pub, MainEvent.destroyObject priv]⟩

/-- Embedding of `aes_wrap_unwrap_with_trusted` (lines 313-400), branch for
branch.  The locate-failure branch returns without cleanup; the trust check
failing or reporting false, and a key-generation failure, reach `done` with
both handles still `CK_INVALID_HANDLE` and no buffer allocated; the `malloc`
failure branch reaches `done` with `rv` still `CKR_OK`; later branches reach
`done` with the generated handles and, once `malloc` succeeded, the buffer
allocated. -/
def aes_wrap_unwrap_with_trusted (env : MainEnv) : MainResult :=
  if (find_wrapping_key_with_label env.findEnv false).rv ≠ CKR_OK then
    ⟨(find_wrapping_key_with_label env.findEnv false).rv, false, []⟩
  else if env.trustedRv ≠ CKR_OK then
    done_block env.trustedRv false CK_INVALID_HANDLE CK_INVALID_HANDLE
  else if env.trustedVal ≠ true then
    done_block CKR_GENERAL_ERROR false CK_INVALID_HANDLE CK_INVALID_HANDLE
  else if env.genRv ≠ CKR_OK then
    done_block env.genRv false CK_INVALID_HANDLE CK_INVALID_HANDLE
  else if env.sizeWrapRv ≠ CKR_OK then
    done_block env.sizeWrapRv false env.genPub env.genPriv
  else if env.mallocOk = false then
    done_block CKR_OK false env.genPub env.genPriv
  else if env.fillWrapRv ≠ CKR_OK then
    done_block env.fillWrapRv true env.genPub env.genPriv
  else
    done_block (aes_template_unwrap env.unwrapEnv).1 true env.genPub env.genPriv

/-- A locator environment on which `find_wrapping_key_with_label` succeeds
with a unique match, handle 42. -/
def envFindOk : FindEnv := ⟨CKR_OK, CKR_OK, 1, CKR_OK, 1, 42, CKR_OK⟩

/-- A run in which locate, trust check, key generation and the wrap size query
all succeed and `malloc` of the wrapped-key buffer fails. -/
def envMallocFail : MainEnv :=
  ⟨envFindOk, CKR_OK, true, CKR_OK, 7, 8, CKR_OK, false, CKR_OK,
   envDistinctHandles, CKR_OK, CKR_OK⟩

/-- C3: every main-sequence failure, including a failed allocation of the
wrapped-key buffer, is claimed to make the function return a non-OK status;
evaluating the embedded code on a run where `malloc` fails shows the function
returns `CKR_OK`, because the `malloc` branch jumps to `done` without
assigning `rv`. -/
theorem malloc_failure_returns_ok :
    envMallocFail.mallocOk = false ∧
    (aes_wrap_unwrap_with_trusted envMallocFail).rv = CKR_OK := by
  decide

/-- A run in which the wrapping-key lookup itself fails. -/
def envLocateFail : MainEnv :=
  ⟨⟨CKR_GENERAL_ERROR, CKR_OK, 0, CKR_OK, 0, 0, CKR_OK⟩, CKR_OK, true,
   CKR_OK, 7, 8, CKR_OK, true, CKR_OK, envDistinctHandles, CKR_OK, CKR_OK⟩

/-- C5 counterexample: on a run where the locate step fails, the function
returns a non-OK status directly, its cleanup block never runs and no
`C_DestroyObject` call is attempted, so destruction is not attempted "exactly
once each regardless of which step failed". -/
theorem locate_failure_skips_cleanup :
    (aes_wrap_unwrap_with_trusted envLocateFail).rv ≠ CKR_OK ∧
    (aes_wrap_unwrap_with_trusted envLocateFail).cleanupRan = false ∧
    (aes_wrap_unwrap_with_trusted envLocateFail).trace = [] := by
  decide

/-- Recognizes the `C_DestroyObject` events of a cleanup trace. -/
def isDestroyEvent : MainEvent → Bool
  | .destroyObject _ => true
  | .freeWrappedKey => false

/-- The destroy calls of the `done` block, independent of whether the buffer
was freed first. -/
theorem done_block_destroy_filter (rv : Nat) (w : Bool) (p q : Nat) :
    (done_block rv w p q).trace.filter isDestroyEvent =
      [MainEvent.destroyObject p, MainEvent.destroyObject q] := by
  cases w <;> rfl

/-- Replace the statuses the module returns for the two `C_DestroyObject`
calls, leaving every other response unchanged. -/
def withDestroyRvs (env : MainEnv) (a b : Nat) : MainEnv :=
  { env with destroyPubRv := a, destroyPrivRv := b }

/-- The result of `aes_wrap_unwrap_with_trusted` does not depend on the
destroy statuses at all: each destruction attempt happens regardless of the
other's outcome. -/
theorem main_ignores_destroy_rvs (env : MainEnv) (a b : Nat) :
    aes_wrap_unwrap_with_trusted (withDestroyRvs env a b) =
      aes_wrap_unwrap_with_trusted env := by
  cases env
  rfl

/-- C5 amended: on every run in which the wrapping-key lookup succeeds (so the
cleanup block is reached), the cleanup trace contains exactly one destruction
attempt for the public handle followed by exactly one for the private handle —
with the generated handles exactly when the trust check and key generation
succeeded, and with `CK_INVALID_HANDLE` for both otherwise — and the trace is
unchanged under any destroy statuses, so a destruction failure for one object
cannot prevent the attempt for the other; when the lookup fails, no
destruction is attempted at all. -/
theorem cleanup_destroys_both_keys_once (env : MainEnv) (a b : Nat)
    (h : (find_wrapping_key_with_label env.findEnv false).rv = CKR_OK) :
    ((env.trustedRv = CKR_OK ∧ env.trustedVal = true ∧ env.genRv = CKR_OK) →
       (aes_wrap_unwrap_with_trusted env).trace.filter isDestroyEvent =
         [MainEvent.destroyObject env.genPub, MainEvent.destroyObject env.genPriv]) ∧
    (¬(env.trustedRv = CKR_OK ∧ env.trustedVal = true ∧ env.genRv = CKR_OK) →
       (aes_wrap_unwrap_with_trusted env).trace.filter isDestroyEvent =
         [MainEvent.destroyObject CK_INVALID_HANDLE,
          MainEvent.destroyObject CK_INVALID_HANDLE]) ∧
    (aes_wrap_unwrap_with_trusted (withDestroyRvs env a b)).trace =
      (aes_wrap_unwrap_with_trusted env).trace := by
  refine ⟨?_, ?_, by rw [main_ignores_destroy_rvs]⟩
  · rintro ⟨hg1, hg2, hg3⟩
    unfold aes_wrap_unwrap_with_trusted
    rw [if_neg (not_not_intro h)]
    split_ifs with h1 h2 h3
    · exact absurd hg1 h1
    · exact absurd hg2 h2
    · exact absurd hg3 h3
    all_goals exact done_block_destroy_filter _ _ _ _
  · intro hng
    unfold aes_wrap_unwrap_with_trusted
    rw [if_neg (not_not_intro h)]
    split_ifs with h1 h2 h3
    · exact done_block_destroy_filter _ _ _ _
    · exact done_block_destroy_filter _ _ _ _
    · exact done_block_destroy_filter _ _ _ _
    all_goals
      exact absurd ⟨not_ne_iff.mp h1, not_ne_iff.mp h2, not_ne_iff.mp h3⟩ hng

/-- C5 witness: on the malloc-failure run the trust check and key generation
succeeded, so cleanup destroys exactly the two generated handles 7 and 8, once
each, and destroy statuses 5 and 6 do not affect the trace. -/
theorem cleanup_destroys_both_keys_once_witness :
    (aes_wrap_unwrap_with_trusted envMallocFail).trace.filter isDestroyEvent =
      [MainEvent.destroyObject 7, MainEvent.destroyObject 8] ∧
    (aes_wrap_unwrap_with_trusted (withDestroyRvs envMallocFail 5 6)).trace =
      (aes_wrap_unwrap_with_trusted envMallocFail).trace :=
  ⟨(cleanup_destroys_both_keys_once envMallocFail 5 6 (by decide)).1 ⟨rfl, rfl, rfl⟩,
   (cleanup_destroys_both_keys_once envMallocFail 5 6 (by decide)).2.2⟩

/-- C10: whenever the run reaches the cleanup block before key-pair generation
has run or succeeded — the trust query failed, or reported a non-true value,
or `C_GenerateKeyPair` failed — the cleanup still calls `C_DestroyObject` on
both key variables, passing the sentinel `CK_INVALID_HANDLE` for each. -/
theorem cleanup_before_generation_destroys_invalid_handles (env : MainEnv)
    (h : (find_wrapping_key_with_label env.findEnv false).rv = CKR_OK)
    (hpre : env.trustedRv ≠ CKR_OK ∨ env.trustedVal = false ∨ env.genRv ≠ CKR_OK) :
    (aes_wrap_unwrap_with_trusted env).trace =
      [MainEvent.destroyObject CK_INVALID_HANDLE,
       MainEvent.destroyObject CK_INVALID_HANDLE] := by
  unfold aes_wrap_unwrap_with_trusted
  rw [if_neg (not_not_intro h)]
  split_ifs with h1 h2 h3
  · rfl
  · rfl
  · rfl
  all_goals
    rcases hpre with hp | hp | hp
    · exact absurd hp h1
    · simp [hp] at h2
    · exact absurd hp h3

/-- C10 witness: a run where the lookup succeeds and the CKA_TRUSTED query
fails with status 5; both destroy calls receive `CK_INVALID_HANDLE`. -/
theorem cleanup_before_generation_destroys_invalid_handles_witness :
    (aes_wrap_unwrap_with_trusted
       ⟨envFindOk, 5, true, CKR_OK, 7, 8, CKR_OK, true, CKR_OK,
        envDistinctHandles, CKR_OK, CKR_OK⟩).trace =
      [MainEvent.destroyObject CK_INVALID_HANDLE,
       MainEvent.destroyObject CK_INVALID_HANDLE] :=
  cleanup_before_generation_destroys_invalid_handles
    ⟨envFindOk, 5, true, CKR_OK, 7, 8, CKR_OK, true, CKR_OK,
     envDistinctHandles, CKR_OK, CKR_OK⟩
    (by decide) (Or.inl (by decide))
